import Mathlib

/-!
Verification of the core logic of `strength_percentiles.py` / `webpage.py`
(Strength-Percentiles repository): percentile computation over a table of
powerlifting meet results, category-based population filtering, ingestion
of table rows, and the derived `total` lift.

Numeric lift values (Python floats fed by `float(...)` on table text or user
input) are modelled as rationals `ℚ`; SQL `REAL` columns that may be NULL, and
dictionary entries that may be `None`, are modelled as `Option ℚ`.
-/

namespace StrengthPercentiles

/-- The four lift names the program works with: the module constants
`SQUAT`, `BENCH`, `DEADLIFT`, `TOTAL` of `strength_percentiles.py`. -/
inductive Lift : Type
  | squat
  | bench
  | deadlift
  | total
deriving DecidableEq, Repr

/-- One row of the `meet_results` SQLite table (schema in `populate_database`:
`gender TEXT, professional_status TEXT, equipment TEXT, squat REAL, bench REAL,
deadlift REAL, total REAL`).  The three category columns hold the scraped
category strings (per the data model, `gender ∈ {Male, Female}` etc., so they
are modelled as total strings); the four lift columns are nullable reals. -/
structure LiftRecord : Type where
  gender : String
  professional_status : String
  equipment : String
  squat : Option ℚ
  bench : Option ℚ
  deadlift : Option ℚ
  total : Option ℚ
deriving DecidableEq, Repr

/-- Column access `lifts_df[lift]` for a single record: the value of the
requested lift column. -/
def LiftRecord.liftVal (r : LiftRecord) : Lift → Option ℚ
  | Lift.squat => r.squat
  | Lift.bench => r.bench
  | Lift.deadlift => r.deadlift
  | Lift.total => r.total

/-- The pandas Series `lifts_df[lift]`: the `lift` column of the dataframe,
one (possibly null) entry per record, in row order. -/
def column (lifts_df : List LiftRecord) (lift : Lift) : List (Option ℚ) :=
  lifts_df.map (fun r => r.liftVal lift)

/-- pandas `Series.count()`: the number of non-null entries of the series. -/
def seriesCount (s : List (Option ℚ)) : Nat :=
  (s.filterMap id).length

/-- The boolean-mask selection `series[series < v]` followed by `.count()`:
null entries compare as false under `<` and are dropped by the mask, so this
counts the non-null entries that are strictly below `v`. -/
def seriesCountLt (s : List (Option ℚ)) (v : ℚ) : Nat :=
  ((s.filterMap id).filter (fun x => x < v)).length

/-- One entry of the dictionary returned by `find_percentile`. -/
inductive LiftResult : Type
  | NA
    -- the string "N/A": `user_lifts[lift]` was not a `numbers.Real`
  | nanPct
    -- `number_of_lifts == 0`: the division `float(0)/count` is performed on a
    -- numpy integer scalar, so `0.0/0` silently produces the float NaN and the
    -- returned string is "%4.2f" % nan + " percentile" (" nan percentile")
  | pct (p : ℚ)
    -- the string ("%4.2f" % p) + " percentile", carrying the exact value of
    -- (float(number_of_smaller_lifts)/number_of_lifts) * 100
deriving DecidableEq, Repr

/-- `find_percentile(lifts_df, user_lifts)` (strength_percentiles.py lines
235-246).  `user_lifts` is a dictionary whose values at every call site
(`get_lifts_from_user`, webpage `calculate_percentiles`) are floats or `None`,
modelled as `Option ℚ`; `isinstance(user_lifts[lift], numbers.Real)` is then
`Option.isSome`.  The loop body is independent per lift, so the returned
dictionary is modelled as a function on `Lift`. -/
def find_percentile (lifts_df : List LiftRecord) (user_lifts : Lift → Option ℚ) :
    Lift → LiftResult := fun lift =>
  match user_lifts lift with
  | some entered_lift =>
      let all_competitor_lifts := column lifts_df lift
      let number_of_lifts := seriesCount all_competitor_lifts
      let number_of_smaller_lifts := seriesCountLt all_competitor_lifts entered_lift
      if number_of_lifts = 0 then
        LiftResult.nanPct
      else
        LiftResult.pct (((number_of_smaller_lifts : ℚ) / (number_of_lifts : ℚ)) * 100)
  | Option.none => LiftResult.NA

/-- `n` in the words of the spec: the count of records in the filtered
population that have a non-null value for the lift. -/
def specN (pop : List LiftRecord) (lift : Lift) : Nat :=
  (pop.filter (fun r => (r.liftVal lift).isSome)).length

/-- `k` in the words of the spec: the count of records whose value for the
lift is present and strictly less than the user's value. -/
def specK (pop : List LiftRecord) (lift : Lift) (v : ℚ) : Nat :=
  (pop.filter (fun r =>
    match r.liftVal lift with
    | some x => decide (x < v)
    | Option.none => false)).length

theorem seriesCount_eq_specN (pop : List LiftRecord) (lift : Lift) :
    seriesCount (column pop lift) = specN pop lift := by
  induction pop with
  | nil => rfl
  | cons r pop ih =>
      simp only [seriesCount, column, specN, List.filterMap_map,
        Function.comp_def, id_eq] at ih ⊢
      rw [List.filterMap_cons, List.filter_cons]
      cases h : r.liftVal lift <;> simp [h, ih]

theorem seriesCountLt_eq_specK (pop : List LiftRecord) (lift : Lift) (v : ℚ) :
    seriesCountLt (column pop lift) v = specK pop lift v := by
  induction pop with
  | nil => rfl
  | cons r pop ih =>
      simp only [seriesCountLt, column, specK, List.filterMap_map,
        Function.comp_def, id_eq] at ih ⊢
      rw [List.filterMap_cons, List.filter_cons]
      cases h : r.liftVal lift with
      | none => simp [h, ih]
      | some x =>
          by_cases hx : x < v <;> simp [h, hx, ih, List.filter_cons]

/-- Shared helper: on a numeric user value and a non-empty comparable
population, `find_percentile` yields the exact ratio `(k / n) * 100` in the
counts of the spec. -/
theorem find_percentile_eq_pct (pop : List LiftRecord) (u : Lift → Option ℚ)
    (lift : Lift) (v : ℚ) (hu : u lift = some v) (hn : 0 < specN pop lift) :
    find_percentile pop u lift
      = LiftResult.pct (((specK pop lift v : ℚ) / (specN pop lift : ℚ)) * 100) := by
  have hne : ¬ seriesCount (column pop lift) = 0 := by
    rw [seriesCount_eq_specN]; omega
  simp only [find_percentile, hu]
  rw [if_neg hne, seriesCount_eq_specN, seriesCountLt_eq_specK]

/-- Shared helper: with an empty comparable population the code reaches the
division `float(0)/0` and the result entry is the silent NaN string. -/
theorem find_percentile_eq_nan (pop : List LiftRecord) (u : Lift → Option ℚ)
    (lift : Lift) (v : ℚ) (hu : u lift = some v) (hn : specN pop lift = 0) :
    find_percentile pop u lift = LiftResult.nanPct := by
  have h0 : seriesCount (column pop lift) = 0 := by rw [seriesCount_eq_specN, hn]
  simp [find_percentile, hu, h0]

/-- A concrete three-record population whose squat column is [200, 250, 300]
(the spec's tie-handling scenario); the middle record has a null bench and a
null total. -/
def popW : List LiftRecord :=
  [ { gender := "Male", professional_status := "AM", equipment := "Raw",
      squat := some 200, bench := some 130, deadlift := some 250, total := some 580 },
    { gender := "Female", professional_status := "Pro", equipment := "Ply",
      squat := some 250, bench := Option.none, deadlift := some 260, total := Option.none },
    { gender := "Male", professional_status := "AM", equipment := "Raw",
      squat := some 300, bench := some 180, deadlift := some 320, total := some 800 } ]

/-- A concrete user entry: squat 250, no bench, deadlift 100, no total. -/
def userW : Lift → Option ℚ
  | Lift.squat => some 250
  | Lift.bench => Option.none
  | Lift.deadlift => some 100
  | Lift.total => Option.none

/-- Same as `userW` except for a higher squat of 300. -/
def userV : Lift → Option ℚ
  | Lift.squat => some 300
  | Lift.bench => Option.none
  | Lift.deadlift => some 100
  | Lift.total => Option.none

/-- Same as `userW` except that a bench of 999 was entered. -/
def userW2 : Lift → Option ℚ
  | Lift.squat => some 250
  | Lift.bench => some 999
  | Lift.deadlift => some 100
  | Lift.total => Option.none

/-- Shared helper: the below-count never exceeds the comparable-population
count. -/
theorem specK_le_specN (pop : List LiftRecord) (lift : Lift) (v : ℚ) :
    specK pop lift v ≤ specN pop lift := by
  unfold specK specN
  refine List.Sublist.length_le (List.monotone_filter_right _ ?_)
  intro r hr
  cases h : r.liftVal lift with
  | none => rw [h] at hr; exact absurd hr (by simp)
  | some x => simp [h]

/-- Shared helper: when every present value is at least `v`, no record counts
as below. -/
theorem specK_eq_zero_of_ge (pop : List LiftRecord) (lift : Lift) (v : ℚ)
    (h : ∀ r ∈ pop, ∀ x : ℚ, r.liftVal lift = some x → v ≤ x) :
    specK pop lift v = 0 := by
  unfold specK
  rw [List.length_eq_zero, List.filter_eq_nil_iff]
  intro r hr
  cases hx : r.liftVal lift with
  | none => simp
  | some x => simpa using not_lt.mpr (h r hr x hx)

/-- Shared helper: when every present value is strictly below `v`, every
comparable record counts as below. -/
theorem specK_eq_specN_of_lt (pop : List LiftRecord) (lift : Lift) (v : ℚ)
    (h : ∀ r ∈ pop, ∀ x : ℚ, r.liftVal lift = some x → x < v) :
    specK pop lift v = specN pop lift := by
  unfold specK specN
  congr 1
  refine List.filter_congr ?_
  intro r hr
  cases hx : r.liftVal lift with
  | none => simp
  | some x => simpa using h r hr x hx

/-- Shared helper: the below-count is monotone in the user's value. -/
theorem specK_mono (pop : List LiftRecord) (lift : Lift) {v1 v2 : ℚ} (h : v1 ≤ v2) :
    specK pop lift v1 ≤ specK pop lift v2 := by
  unfold specK
  refine List.Sublist.length_le (List.monotone_filter_right _ ?_)
  intro r hr
  cases hx : r.liftVal lift with
  | none => rw [hx] at hr; exact absurd hr (by simp)
  | some x =>
      rw [hx] at hr
      have hx1 : x < v1 := by simpa using hr
      simpa using lt_of_lt_of_le hx1 h

/-- Claim C1: for every filtered population and every lift with a numeric user
value `v` and a non-empty comparable population, `find_percentile` returns the
percentile `100 * k / n`, where `n` counts the records with a non-null value
for the lift (missing values excluded from numerator and denominator) and `k`
counts those strictly below `v`. -/
theorem C1_percentile_formula (pop : List LiftRecord) (u : Lift → Option ℚ)
    (lift : Lift) (v : ℚ) (hu : u lift = some v) (hn : 0 < specN pop lift) :
    find_percentile pop u lift
      = LiftResult.pct (100 * (specK pop lift v : ℚ) / (specN pop lift : ℚ)) := by
  rw [find_percentile_eq_pct pop u lift v hu hn]
  congr 1
  ring

/-- Witness for C1 at the concrete population `popW`, user squat 250. -/
theorem C1_percentile_formula_witness :
    userW Lift.squat = some 250 ∧ 0 < specN popW Lift.squat ∧
    find_percentile popW userW Lift.squat
      = LiftResult.pct (100 * (specK popW Lift.squat 250 : ℚ) / (specN popW Lift.squat : ℚ)) :=
  ⟨rfl, by decide, C1_percentile_formula popW userW Lift.squat 250 rfl (by decide)⟩

/-- Claim C2 (code bug, evaluated at the failing input): on an empty filtered
population with a numeric user squat, `find_percentile` does not produce an
explicit "no comparable population" result; it reaches `float(0)/0`, which on
the numpy scalars involved silently evaluates to NaN, so the squat entry of
the returned dictionary is the NaN percentile string. -/
theorem C2_empty_population_silent_nan :
    find_percentile [] (fun _ => some 100) Lift.squat = LiftResult.nanPct := rfl

/-- Claim C5: holding the population fixed, the percentile is monotone
non-decreasing in the user's entered value. -/
theorem C5_percentile_monotonic (pop : List LiftRecord) (u1 u2 : Lift → Option ℚ)
    (lift : Lift) (v1 v2 p1 p2 : ℚ)
    (h1 : u1 lift = some v1) (h2 : u2 lift = some v2) (hv : v1 < v2)
    (e1 : find_percentile pop u1 lift = LiftResult.pct p1)
    (e2 : find_percentile pop u2 lift = LiftResult.pct p2) :
    p1 ≤ p2 := by
  by_cases hn : 0 < specN pop lift
  · rw [find_percentile_eq_pct pop u1 lift v1 h1 hn] at e1
    rw [find_percentile_eq_pct pop u2 lift v2 h2 hn] at e2
    rw [← LiftResult.pct.inj e1, ← LiftResult.pct.inj e2]
    have hk : (specK pop lift v1 : ℚ) ≤ (specK pop lift v2 : ℚ) :=
      Nat.cast_le.mpr (specK_mono pop lift (le_of_lt hv))
    gcongr
  · have h0 : specN pop lift = 0 := by omega
    rw [find_percentile_eq_nan pop u1 lift v1 h1 h0] at e1
    exact absurd e1 (by simp)

/-- Witness for C5: squat 250 versus squat 300 against `popW`. -/
theorem C5_percentile_monotonic_witness :
    (250 : ℚ) < 300 ∧
    ((seriesCountLt (column popW Lift.squat) 250 : ℚ)
        / (seriesCount (column popW Lift.squat) : ℚ)) * 100
      ≤ ((seriesCountLt (column popW Lift.squat) 300 : ℚ)
        / (seriesCount (column popW Lift.squat) : ℚ)) * 100 :=
  ⟨by norm_num,
    C5_percentile_monotonic popW userW userV Lift.squat 250 300 _ _ rfl rfl (by norm_num)
      rfl rfl⟩

/-- The `"%4.2f"` rendering used for the percentile string rounds its
argument to two decimal places (a value like 33.33 already fills the minimum
width of 4, so no padding appears); modelled as exact rounding to a rational
with denominator 100. -/
def roundTo2 (q : ℚ) : ℚ := ((Int.floor (q * 100 + 1/2) : ℤ) : ℚ) / 100

/-- Claim C6: records whose value equals the user's entry are never counted in
the below-count `k` (the mask is a strict less-than); in the spec's scenario —
squat column [200, 250, 300], user squat 250 — `k = 1`, `n = 3`, and the
rendered percentile is 33.33. -/
theorem C6_equal_value_exclusion :
    (∀ (s : List (Option ℚ)) (v : ℚ),
        ((s.filterMap id).filter (fun x => x < v)).count v = 0) ∧
    specK popW Lift.squat 250 = 1 ∧ specN popW Lift.squat = 3 ∧
    find_percentile popW userW Lift.squat
      = LiftResult.pct ((specK popW Lift.squat 250 : ℚ)
          / (specN popW Lift.squat : ℚ) * 100) ∧
    roundTo2 ((specK popW Lift.squat 250 : ℚ) / (specN popW Lift.squat : ℚ) * 100)
      = 3333 / 100 := by
  refine ⟨?_, by decide, by decide,
    find_percentile_eq_pct popW userW Lift.squat 250 rfl (by decide), ?_⟩
  · intro s v
    rw [List.count_eq_zero]
    intro hmem
    rw [List.mem_filter] at hmem
    have : v < v := by simpa using hmem.2
    exact absurd this (lt_irrefl v)
  · have hk : specK popW Lift.squat 250 = 1 := by decide
    have hn : specN popW Lift.squat = 3 := by decide
    rw [hk, hn]
    norm_num [roundTo2]

/-- Claim C7: a lift whose user value is absent (not a `numbers.Real`) yields
"N/A" for that lift only; the result for any lift depends only on the user
value entered for that same lift, so one lift's failure never invalidates the
others. -/
theorem C7_na_scoped_per_lift (pop : List LiftRecord) (u u2 : Lift → Option ℚ)
    (lift lift2 : Lift) (hna : u lift = Option.none) (hsame : u lift2 = u2 lift2) :
    find_percentile pop u lift = LiftResult.NA ∧
    find_percentile pop u lift2 = find_percentile pop u2 lift2 := by
  constructor
  · simp [find_percentile, hna]
  · simp only [find_percentile, hsame]

/-- Witness for C7: `userW` has no bench entry, and changing the bench entry
(`userW2`) leaves the squat result untouched. -/
theorem C7_na_scoped_per_lift_witness :
    userW Lift.bench = Option.none ∧ userW Lift.squat = userW2 Lift.squat ∧
    (find_percentile popW userW Lift.bench = LiftResult.NA ∧
     find_percentile popW userW Lift.squat = find_percentile popW userW2 Lift.squat) :=
  ⟨rfl, rfl, C7_na_scoped_per_lift popW userW userW2 Lift.bench Lift.squat rfl rfl⟩

/-- Claim C8: whenever the comparable population is non-empty, the computed
percentile lies in [0, 100]; it is 0 when every comparable value is at least
the user's value, and 100 when the user's value strictly exceeds every
comparable value. -/
theorem C8_percentile_range (pop : List LiftRecord) (u : Lift → Option ℚ)
    (lift : Lift) (v : ℚ) (hu : u lift = some v) (hn : 0 < specN pop lift) :
    ∃ p : ℚ, find_percentile pop u lift = LiftResult.pct p ∧ 0 ≤ p ∧ p ≤ 100 ∧
      ((∀ r ∈ pop, ∀ x : ℚ, r.liftVal lift = some x → v ≤ x) → p = 0) ∧
      ((∀ r ∈ pop, ∀ x : ℚ, r.liftVal lift = some x → x < v) → p = 100) := by
  have hnQ : (0 : ℚ) < (specN pop lift : ℚ) := by exact_mod_cast hn
  refine ⟨_, find_percentile_eq_pct pop u lift v hu hn, ?_, ?_, ?_, ?_⟩
  · positivity
  · have hk : (specK pop lift v : ℚ) ≤ (specN pop lift : ℚ) :=
      Nat.cast_le.mpr (specK_le_specN pop lift v)
    calc (specK pop lift v : ℚ) / (specN pop lift : ℚ) * 100
        ≤ (specN pop lift : ℚ) / (specN pop lift : ℚ) * 100 := by gcongr
      _ = 100 := by rw [div_self (ne_of_gt hnQ), one_mul]
  · intro h
    rw [specK_eq_zero_of_ge pop lift v h]
    norm_num
  · intro h
    rw [specK_eq_specN_of_lt pop lift v h, div_self (ne_of_gt hnQ), one_mul]

/-- Witness for C8: `popW` deadlift column [250, 260, 320] with user deadlift
100. -/
theorem C8_percentile_range_witness :
    userW Lift.deadlift = some 100 ∧ 0 < specN popW Lift.deadlift ∧
    (∃ p : ℚ, find_percentile popW userW Lift.deadlift = LiftResult.pct p ∧
      0 ≤ p ∧ p ≤ 100 ∧
      ((∀ r ∈ popW, ∀ x : ℚ, r.liftVal Lift.deadlift = some x → 100 ≤ x) → p = 0) ∧
      ((∀ r ∈ popW, ∀ x : ℚ, r.liftVal Lift.deadlift = some x → x < 100) → p = 100)) :=
  ⟨rfl, by decide, C8_percentile_range popW userW Lift.deadlift 100 rfl (by decide)⟩

/-- Python runtime values flowing through the lifts dictionaries and the
`reduce` lambda of `get_lifts_from_user`: `None`, floats, and the booleans the
lambda itself produces. -/
inductive PyVal : Type
  | none
  | num (q : ℚ)
  | bool (b : Bool)
deriving DecidableEq, Repr

/-- `isinstance(x, numbers.Real)`: floats are Real, and Python's `bool` is a
subclass of `int` and hence also an instance of `numbers.Real`; `None` is
not. -/
def isReal : PyVal → Bool
  | PyVal.num _ => true
  | PyVal.bool _ => true
  | PyVal.none => false

/-- Python's `reduce(f, [x0, x1, ..., xn])` without initializer:
`f(...f(f(x0, x1), x2)..., xn)`. -/
def reduceLeft (f : PyVal → PyVal → PyVal) : PyVal → List PyVal → PyVal
  | a, [] => a
  | a, x :: xs => reduceLeft f (f a x) xs

/-- Python truthiness of the values occurring here. -/
def pyTruthy : PyVal → Bool
  | PyVal.none => false
  | PyVal.num q => decide (q ≠ 0)
  | PyVal.bool b => b

inductive PyErr : Type
  | typeError
  | nameError
deriving DecidableEq, Repr

/-- `x + y` on the operands that reach the additions modelled here (floats or
`None`): float addition; a `None` operand raises `TypeError`. -/
def pyAdd : PyVal → PyVal → Except PyErr PyVal
  | PyVal.num a, PyVal.num b => Except.ok (PyVal.num (a + b))
  | _, _ => Except.error PyErr.typeError

/-- A float-or-`None` dictionary entry as a Python value. -/
def toPy : Option ℚ → PyVal
  | some q => PyVal.num q
  | Option.none => PyVal.none

/-- Line 353-355 of `get_lifts_from_user`:
`reduce(lambda x, y: isinstance(x, numbers.Real) and isinstance(y,
numbers.Real), [lifts[SQUAT], lifts[BENCH], lifts[DEADLIFT]])`.  Note the
lambda's intermediate boolean result is itself fed back as `x`, and a bool is
a `numbers.Real`. -/
def valid_entries_for_all_lifts (s b d : Option ℚ) : PyVal :=
  reduceLeft (fun x y => PyVal.bool (isReal x && isReal y)) (toPy s) [toPy b, toPy d]

/-- Lines 351-360 of `get_lifts_from_user`: the derived `total` entry.  When
the reduce result is truthy the code evaluates
`lifts[SQUAT] + lifts[BENCH] + lifts[DEADLIFT]` (left associated), which
raises `TypeError` if any operand is still `None`; otherwise `None` is
stored. -/
def get_lifts_from_user_total (s b d : Option ℚ) : Except PyErr (Option ℚ) :=
  if pyTruthy (valid_entries_for_all_lifts s b d) then
    match pyAdd (toPy s) (toPy b) with
    | Except.error e => Except.error e
    | Except.ok t =>
        match pyAdd t (toPy d) with
        | Except.error e => Except.error e
        | Except.ok (PyVal.num q) => Except.ok (some q)
        | Except.ok _ => Except.ok Option.none
  else
    Except.ok Option.none

/-- The `total` derivation as the docstring of `get_lifts_from_user` and the
spec state it: present iff all three lifts are present, and then equal to
their sum (never a partial sum, never an error). -/
def specDerivedTotal (s b d : Option ℚ) : Option ℚ :=
  match s, b, d with
  | some x, some y, some z => some (x + y + z)
  | _, _, _ => Option.none

/-- Claim C3 (code bug, evaluated at the failing input squat=100, bench
missing, deadlift=300): the `reduce` lambda feeds its boolean intermediate
result back into `isinstance(·, numbers.Real)`, which holds for booleans, so
the all-lifts-present check degenerates to a check of the deadlift alone; the
code then evaluates `100 + None + 300` and raises `TypeError` instead of
storing the absent total the docstring and the spec require. -/
theorem C3_total_invariant_broken :
    pyTruthy (valid_entries_for_all_lifts (some 100) Option.none (some 300)) = true ∧
    get_lifts_from_user_total (some 100) Option.none (some 300)
      = Except.error PyErr.typeError ∧
    specDerivedTotal (some 100) Option.none (some 300) = Option.none :=
  ⟨rfl, rfl, rfl⟩

/-- `pySumGo acc l`: Python's `sum` loop, accumulating with `+` and
propagating the first `TypeError`. -/
def pySumGo : PyVal → List PyVal → Except PyErr PyVal
  | acc, [] => Except.ok acc
  | acc, x :: xs =>
      match pyAdd acc x with
      | Except.ok acc2 => pySumGo acc2 xs
      | Except.error e => Except.error e

/-- Python's `sum(values)`: fold of `+` starting from the int 0. -/
def pySum (l : List PyVal) : Except PyErr PyVal := pySumGo (PyVal.num 0) l

/-- webpage.py lines 27-36: the route pre-seeds
`lifts = {squat: None, bench: None, deadlift: None, total: None}`, overwrites
the three lift keys with float-or-`None` form values, and attempts
`sum(lifts.values())` — over all four dictionary values, the still-`None`
`total` entry included (placed last here; any iteration order containing it
raises the same `TypeError`).  The `except TypeError` branch then stores
`None`. -/
def calculate_percentiles_total (s b d : Option ℚ) : Option ℚ :=
  match pySum [toPy s, toPy b, toPy d, PyVal.none] with
  | Except.ok (PyVal.num q) => some q
  | _ => Option.none

/-- The `user_lifts` dictionary the `/calculate` route passes to
`find_percentile`. -/
def webUserLifts (s b d : Option ℚ) : Lift → Option ℚ
  | Lift.squat => s
  | Lift.bench => b
  | Lift.deadlift => d
  | Lift.total => calculate_percentiles_total s b d

/-- Claim C10: in the web route the derived total is `None` on every request —
the summed dictionary values always include the pre-seeded `None` total entry,
so the `TypeError` branch is always taken, even when all three lifts are valid
numbers — and therefore the total percentile reported through the web
interface is always "N/A". -/
theorem C10_web_total_always_na (pop : List LiftRecord) (s b d : Option ℚ) :
    calculate_percentiles_total s b d = Option.none ∧
    find_percentile pop (webUserLifts s b d) Lift.total = LiftResult.NA := by
  have h : calculate_percentiles_total s b d = Option.none := by
    cases s <;> cases b <;> cases d <;> rfl
  refine ⟨h, ?_⟩
  have hw : webUserLifts s b d Lift.total = Option.none := h
  simp [find_percentile, hw]

/-- Column numbers of the scraped meet-results table. -/
def GENDER_COLUMN : Nat := 1

def PROFESSIONAL_STATUS_COLUMN : Nat := 3

def EQUIPMENT_COLUMN : Nat := 5

def SQUAT_COLUMN : Nat := 15

def BENCH_COLUMN : Nat := 17

def DEADLIFT_COLUMN : Nat := 19

/-- The six keys of `FORMAT_DICTIONARY`. -/
inductive Field : Type
  | gender
  | professional_status
  | equipment
  | squat
  | bench
  | deadlift
deriving DecidableEq, Repr

/-- `FORMAT_DICTIONARY`: field name to column number. -/
def FORMAT_DICTIONARY : Field → Nat
  | Field.gender => GENDER_COLUMN
  | Field.professional_status => PROFESSIONAL_STATUS_COLUMN
  | Field.equipment => EQUIPMENT_COLUMN
  | Field.squat => SQUAT_COLUMN
  | Field.bench => BENCH_COLUMN
  | Field.deadlift => DEADLIFT_COLUMN

/-- A value returned by `get_data_from_table`: a string for category columns,
a float for lift columns with a valid numeric entry, `None` otherwise. -/
inductive CellData : Type
  | str (s : String)
  | num (q : ℚ)
  | null
deriving DecidableEq, Repr

def isDigitStr (l : List Char) : Bool := l.all Char.isDigit

def digitsToNat (l : List Char) : Nat := l.foldl (fun n c => 10 * n + (c.toNat - 48)) 0

/-- `float(s)` on the numeric strings occurring in the lift columns of the
meet table: an optional run of digits, an optional dot, an optional run of
digits, with at least one digit overall (signs, exponents and surrounding
whitespace do not occur in the table).  Any other string — e.g. "DNF" —
raises `ValueError`, modelled as `Option.none`. -/
def pyFloat (s : String) : Option ℚ :=
  match s.splitOn "." with
  | [w] =>
      if w.data ≠ [] ∧ isDigitStr w.data = true then
        some ((digitsToNat w.data : ℚ))
      else Option.none
  | [w, f] =>
      if (w.data ≠ [] ∨ f.data ≠ []) ∧ isDigitStr w.data = true ∧ isDigitStr f.data = true then
        some ((digitsToNat w.data : ℚ) + (digitsToNat f.data : ℚ) / ((10 : ℚ) ^ f.data.length))
      else Option.none
  | _ => Option.none

/-- A table row as `parse_row` sees it after `row = row.contents`: whether the
cell at index 1 carries a (truthy) `colspan` attribute — the header-row test —
and, per column index, the cell's `.string` content (`None` for an empty
cell). -/
structure Row : Type where
  colspanAt1 : Bool
  cellStr : Nat → Option String

/-- `get_data_from_table(row, column)` (lines 104-136): lift columns are fed
through `float`, with `TypeError` (empty cell) and `ValueError` (e.g. "DNF")
caught and turned into `None`; other columns return the cell string as is. -/
def get_data_from_table (row : Row) (column : Nat) : CellData :=
  let data := row.cellStr column
  if column = SQUAT_COLUMN ∨ column = BENCH_COLUMN ∨ column = DEADLIFT_COLUMN then
    match data with
    | some s =>
        match pyFloat s with
        | some q => CellData.num q
        | Option.none => CellData.null
    | Option.none => CellData.null
  else
    match data with
    | some s => CellData.str s
    | Option.none => CellData.null

/-- The local names bound in `parse_row`'s frame when line 97 executes: its
parameter (rebound on line 91) and the dictionary built on line 94. -/
def parse_row_locals : List String := ["row", "results_dictionary"]

/-- The module-level names of strength_percentiles.py (imports, constants,
function definitions).  The lowercase names `squat`, `bench`, `deadlift` are
not among them — only the uppercase string constants `SQUAT`, `BENCH`,
`DEADLIFT` are. -/
def module_globals : List String :=
  ["urllib2", "BeautifulSoup", "sq", "pd", "numbers",
   "QUOTE_PAGE", "DATABASE", "MEET_RESULTS_TABLE",
   "GENDER", "FEMALE", "MALE", "AMATEUR", "PROFESSIONAL_STATUS", "PROFESSIONAL",
   "EQUIPMENT", "RAW", "EQUIPPED",
   "SQUAT", "BENCH", "DEADLIFT", "TOTAL", "CATEGORY_VALUES",
   "GENDER_COLUMN", "PROFESSIONAL_STATUS_COLUMN", "EQUIPMENT_COLUMN",
   "SQUAT_COLUMN", "BENCH_COLUMN", "DEADLIFT_COLUMN", "FORMAT_DICTIONARY",
   "parse_row", "get_data_from_table", "populate_database", "find_percentile",
   "get_population_by_categories", "get_categories_from_user",
   "get_lifts_from_user", "main"]

/-- Python name resolution inside `parse_row`: locals, then module globals. -/
def boundInParseRow (n : String) : Bool :=
  parse_row_locals.contains n || module_globals.contains n

/-- The dictionary `parse_row` would return: the six scraped fields plus the
`TOTAL` key added on lines 98/100. -/
structure ResultsDict : Type where
  fields : Field → CellData
  total : CellData

/-- `parse_row(row)` (lines 68-102).  A header row (cell 1 carries `colspan`)
returns `None`.  Otherwise the comprehension on line 94 builds
`results_dictionary`, and line 97 `if squat and bench and deadlift:` resolves
the bare name `squat` against the local scope and then the module globals;
no binding exists for it, so `NameError` is raised and the function never
returns for a data row.  (The `then` branch is dead code: there is no value
for the unbound names to supply, so the would-be total is recorded as
null.) -/
def parse_row (row : Row) : Except PyErr (Option ResultsDict) :=
  if row.colspanAt1 then
    Except.ok Option.none
  else
    let results_dictionary : Field → CellData :=
      fun field => get_data_from_table row (FORMAT_DICTIONARY field)
    if boundInParseRow "squat" && boundInParseRow "bench" && boundInParseRow "deadlift" then
      Except.ok (some { fields := results_dictionary, total := CellData.null })
    else
      Except.error PyErr.nameError

/-- Claim C9: for every table row that is not a header row, `parse_row` fails
with an undefined-name error: it branches on the variables `squat`, `bench`
and `deadlift`, which are bound neither in its scope nor at module level, so
it can never produce a results dictionary for a data row. -/
theorem C9_parse_row_raises_name_error (row : Row) (h : row.colspanAt1 = false) :
    parse_row row = Except.error PyErr.nameError := by
  have hb : boundInParseRow "squat" = false := by decide
  simp [parse_row, h, hb]

/-- A concrete data row (no `colspan` on cell 1) with plausible cell
contents. -/
def rowW : Row :=
  { colspanAt1 := false,
    cellStr := fun c =>
      if c = GENDER_COLUMN then some "Female"
      else if c = PROFESSIONAL_STATUS_COLUMN then some "AM"
      else if c = EQUIPMENT_COLUMN then some "Raw"
      else if c = SQUAT_COLUMN then some "200"
      else if c = BENCH_COLUMN then some "130.5"
      else if c = DEADLIFT_COLUMN then some "250"
      else some " " }

/-- Witness for C9: the concrete data row `rowW` makes `parse_row` raise
`NameError`. -/
theorem C9_parse_row_raises_name_error_witness :
    rowW.colspanAt1 = false ∧ parse_row rowW = Except.error PyErr.nameError :=
  ⟨rfl, C9_parse_row_raises_name_error rowW rfl⟩

/-- Lowercased character content of a string; SQLite `LIKE` is
case-insensitive on the ASCII letters the category values consist of. -/
def lowerChars (s : String) : List Char := s.data.map Char.toLower

/-- SQLite `field LIKE "pat%"` for the validated category constraints
(`get_categories_from_user` only lets through a value from `CATEGORY_VALUES`
or the empty string, and the web route always passes the empty string, so
`pat` never contains a wildcard): case-insensitively, `pat` is a prefix of
`field`. -/
def likeMatches (pat field : String) : Bool :=
  decide ((lowerChars field).take (lowerChars pat).length = lowerChars pat)

/-- The `categories` dictionary: one constraint per category column, the empty
string meaning "compared to both". -/
structure CategoryFilter : Type where
  gender : String
  professional_status : String
  equipment : String

/-- `get_population_by_categories` (lines 248-277): the
`SELECT * FROM meet_results WHERE gender LIKE "...%" AND professional_status
LIKE "...%" AND equipment LIKE "...%"` query, modelled as a filter over the
stored rows in insertion (rowid) order — the order in which SQLite returns
them for this query. -/
def get_population_by_categories (pop : List LiftRecord) (c : CategoryFilter) :
    List LiftRecord :=
  pop.filter (fun r =>
    likeMatches c.gender r.gender &&
    likeMatches c.professional_status r.professional_status &&
    likeMatches c.equipment r.equipment)

/-- The matching relation in the words of the spec: an empty constraint
matches unconditionally, otherwise the constraint must be a case-insensitive
prefix of the field value. -/
def specCatMatch (constraint field : String) : Prop :=
  constraint = "" ∨
    (lowerChars field).take (lowerChars constraint).length = lowerChars constraint

theorem likeMatches_empty (f : String) : likeMatches "" f = true := by
  have h : lowerChars "" = [] := rfl
  simp [likeMatches, h]

theorem likeMatches_iff (c f : String) : likeMatches c f = true ↔ specCatMatch c f := by
  constructor
  · intro h
    exact Or.inr (of_decide_eq_true h)
  · rintro (rfl | h)
    · exact likeMatches_empty f
    · exact decide_eq_true h

/-- Claim C4: the population filter returns exactly the subset of records
whose gender, professional status and equipment each case-insensitively
prefix-match the corresponding constraint, an empty constraint matching
unconditionally; the output preserves input order, the empty filter returns
the full population unchanged, and (since every stored gender is "Female" or
"Male") filtering on gender "Female" returns only Female records. -/
theorem C4_population_filter (pop : List LiftRecord) (c : CategoryFilter)
    (hg : ∀ r ∈ pop, r.gender = "Female" ∨ r.gender = "Male") :
    (∀ r : LiftRecord, r ∈ get_population_by_categories pop c ↔
        r ∈ pop ∧ specCatMatch c.gender r.gender ∧
          specCatMatch c.professional_status r.professional_status ∧
          specCatMatch c.equipment r.equipment) ∧
    List.Sublist (get_population_by_categories pop c) pop ∧
    get_population_by_categories pop
        { gender := "", professional_status := "", equipment := "" } = pop ∧
    (∀ r ∈ get_population_by_categories pop
        { gender := "Female", professional_status := "", equipment := "" },
      r.gender = "Female") := by
  refine ⟨?_, ?_, ?_, ?_⟩
  · intro r
    rw [get_population_by_categories, List.mem_filter]
    simp only [Bool.and_eq_true, likeMatches_iff]
    tauto
  · exact List.filter_sublist pop
  · refine List.filter_eq_self.mpr ?_
    intro r _
    simp [likeMatches_empty]
  · intro r hr
    rw [get_population_by_categories, List.mem_filter] at hr
    obtain ⟨hmem, hb⟩ := hr
    rw [Bool.and_eq_true, Bool.and_eq_true] at hb
    rcases hg r hmem with hgen | hgen
    · exact hgen
    · rw [hgen] at hb
      exact absurd hb.1.1 (by decide)

/-- Witness population for C4: `popW` has genders "Male", "Female", "Male". -/
theorem C4_population_filter_witness :
    (∀ r ∈ popW, r.gender = "Female" ∨ r.gender = "Male") ∧
    (get_population_by_categories popW
        { gender := "", professional_status := "", equipment := "" } = popW ∧
      ∀ r ∈ get_population_by_categories popW
          { gender := "Female", professional_status := "", equipment := "" },
        r.gender = "Female") :=
  ⟨by decide,
    (C4_population_filter popW
        { gender := "Male", professional_status := "AM", equipment := "Raw" }
        (by decide)).2.2⟩

end StrengthPercentiles
